import Mathlib

/-!
Verification of the demo-mode interception engine of the Hytale-Server manager
backend (`src/manager/backend/src/middleware/demo.ts` and
`src/manager/backend/src/services/demo.ts`).

The TypeScript code is shallowly embedded: the process-wide `config.demoMode`
object is passed explicitly as a `DemoConfig`, timestamps are naturals
(milliseconds since epoch, mirroring `Date.getTime()`), the in-memory
`Map`-based session store is an association list in insertion order, and the
Express middleware is a total function from a request to a result that either
passes the (possibly enriched) request to `next` or writes a JSON body.
-/

set_option maxHeartbeats 4000000

namespace HytaleDemo

/-- Association-list lookup by string key; models JS plain-object property
access (`obj[key]`, own properties, first/only binding wins). -/
def alookup {α : Type} : List (String × α) → String → Option α
  | [], _ => none
  | (k, v) :: rest, key => if key = k then some v else alookup rest key

/-- Split a character list at `'/'` separators, keeping empty chunks; this is
the segment view of a path used by the route regexes (a JS regex built from
segments of literals and `[^/]+` wildcards matches a path exactly when the
path's `'/'`-split chunks align with those segments). -/
def splitSegs : List Char → List String
  | [] => [""]
  | c :: cs =>
    if c = '/' then "" :: splitSegs cs
    else
      match splitSegs cs with
      | s :: ss => String.mk (c :: s.data) :: ss
      | [] => [String.mk [c]]

/-- The `'/'`-separated segments of a path string. -/
def pathSegs (p : String) : List String := splitSegs p.data

/-- Left inverse of `splitSegs`: re-join segments with `'/'`. -/
def joinSegs : List String → List Char
  | [] => []
  | [s] => s.data
  | s :: rest => s.data ++ '/' :: joinSegs rest

/-- One element of a compiled route pattern: a literal path segment or a
single-segment wildcard (`[^/]+` in the source's regexes). -/
inductive Seg where
  | lit (s : String)
  | wild
deriving DecidableEq

/-- Anchored match of a pattern against the segments of a path. A literal
segment matches only itself; a wildcard matches any nonempty segment
(`[^/]+` requires at least one non-separator character). -/
def segsMatch : List Seg → List String → Bool
  | [], [] => true
  | Seg.lit l :: ps, x :: xs => if x = l then segsMatch ps xs else false
  | Seg.wild :: ps, x :: xs => if x = "" then false else segsMatch ps xs
  | _, _ => false

/-- `regex.test(path)` for an anchored pattern `^...$` built from segments. -/
def patMatch (pat : List Seg) (path : String) : Bool :=
  segsMatch pat (pathSegs path)

/-- Whether a string starts with `':'` (first character is a colon); the
segment-level trigger of the `replace(/:[^/]+/g, '[^/]+')` conversion. -/
def startsWithColon (seg : String) : Bool :=
  match seg.data with
  | c :: _ => c = ':'
  | [] => false

/-- `routePattern.replace(/:[^/]+/g, '[^/]+')` from `getRouteAction`: compile a
route-map key into a pattern, turning each named-parameter segment (`:name`)
into a single-segment wildcard. (No key of `ROUTE_ACTION_MAP` actually
contains `':'`, so for the concrete table every compiled segment is literal.) -/
def keyPattern (k : String) : List Seg :=
  (pathSegs k).map fun seg => if startsWithColon seg then Seg.wild else Seg.lit seg

/-- `ROUTE_ACTION_MAP` from `middleware/demo.ts`: route path → method → action. -/
def ROUTE_ACTION_MAP : List (String × List (String × String)) :=
  [ ("/api/server/start", [("POST", "server.start")]),
    ("/api/server/stop", [("POST", "server.stop")]),
    ("/api/server/restart", [("POST", "server.restart")]),
    ("/api/server/quick-settings", [("PUT", "config.edit")]),
    ("/api/server/config", [("PUT", "config.edit")]),
    ("/api/server/patchline", [("PUT", "config.edit")]),
    ("/api/console/command", [("POST", "console.execute")]),
    ("/api/players", [("POST", "players.kick")]),
    ("/api/management/whitelist",
      [("POST", "players.whitelist"), ("PUT", "players.whitelist"), ("DELETE", "players.whitelist")]),
    ("/api/management/bans", [("POST", "players.ban"), ("DELETE", "players.unban")]),
    ("/api/management/permissions",
      [("POST", "players.permissions"), ("PUT", "players.permissions"), ("DELETE", "players.permissions")]),
    ("/api/backups", [("POST", "backups.create"), ("DELETE", "backups.delete")]),
    ("/api/backups/restore", [("POST", "backups.restore")]),
    ("/api/scheduler", [("POST", "scheduler.edit"), ("PUT", "scheduler.edit"), ("DELETE", "scheduler.edit")]),
    ("/api/scheduler/tasks", [("POST", "scheduler.edit"), ("PUT", "scheduler.edit"), ("DELETE", "scheduler.edit")]),
    ("/api/scheduler/config", [("PUT", "scheduler.edit")]),
    ("/api/scheduler/backup/run", [("POST", "backups.create")]),
    ("/api/scheduler/quick-commands", [("POST", "scheduler.edit")]),
    ("/api/scheduler/broadcast", [("POST", "scheduler.edit")]),
    ("/api/scheduler/restart/cancel", [("POST", "scheduler.edit")]),
    ("/api/assets/extract", [("POST", "assets.manage")]),
    ("/api/assets/cache", [("DELETE", "assets.manage")]),
    ("/api/server/plugin/install", [("POST", "mods.install")]),
    ("/api/server/plugin/uninstall", [("DELETE", "mods.install")]),
    ("/api/management/worlds",
      [("POST", "worlds.manage"), ("PUT", "worlds.manage"), ("DELETE", "worlds.manage")]),
    ("/api/management/mods", [("POST", "mods.install"), ("DELETE", "mods.delete")]),
    ("/api/management/mods/upload", [("POST", "mods.install")]),
    ("/api/management/mods/toggle", [("POST", "mods.toggle")]),
    ("/api/management/mods/config", [("PUT", "mods.config")]),
    ("/api/management/plugins", [("POST", "plugins.install"), ("DELETE", "plugins.delete")]),
    ("/api/management/plugins/upload", [("POST", "plugins.install")]),
    ("/api/management/plugins/toggle", [("POST", "plugins.toggle")]),
    ("/api/management/plugins/config", [("PUT", "plugins.config")]),
    ("/api/auth/users", [("POST", "users.create"), ("PUT", "users.edit"), ("DELETE", "users.delete")]),
    ("/api/roles", [("POST", "roles.manage"), ("PUT", "roles.manage"), ("DELETE", "roles.manage")]),
    ("/api/management/settings", [("PUT", "settings.edit")]),
    ("/api/auth/hytale/initiate", [("POST", "hytale_auth.manage")]),
    ("/api/auth/hytale/reset", [("POST", "hytale_auth.manage")]),
    ("/api/auth/hytale/persistence", [("POST", "hytale_auth.manage")]),
    ("/api/chat/send", [("POST", "chat.send")]),
    ("/api/management/activity", [("DELETE", "activity.clear")]) ]

/-- The hard-coded fallback predicates of `getRouteAction` (lines 109-160 of
`middleware/demo.ts`), in source order: each is an anchored path-shape regex
plus a required method, yielding an action. -/
def FALLBACK_RULES : List (List Seg × String × String) :=
  [ ([.lit "", .lit "api", .lit "players", .wild, .lit "kick"], ("POST", "players.kick")),
    ([.lit "", .lit "api", .lit "players", .wild, .lit "ban"], ("POST", "players.ban")),
    ([.lit "", .lit "api", .lit "players", .wild, .lit "ban"], ("DELETE", "players.unban")),
    ([.lit "", .lit "api", .lit "players", .wild, .lit "teleport"], ("POST", "players.teleport")),
    ([.lit "", .lit "api", .lit "players", .wild, .lit "teleport", .lit "death"], ("POST", "players.teleport")),
    ([.lit "", .lit "api", .lit "players", .wild, .lit "kill"], ("POST", "players.kill")),
    ([.lit "", .lit "api", .lit "players", .wild, .lit "heal"], ("POST", "players.heal")),
    ([.lit "", .lit "api", .lit "players", .wild, .lit "gamemode"], ("POST", "players.gamemode")),
    ([.lit "", .lit "api", .lit "players", .wild, .lit "give"], ("POST", "players.give")),
    ([.lit "", .lit "api", .lit "players", .wild, .lit "effect"], ("POST", "players.effects")),
    ([.lit "", .lit "api", .lit "players", .wild, .lit "inventory", .lit "clear"], ("POST", "players.clear_inventory")),
    ([.lit "", .lit "api", .lit "players", .wild, .lit "message"], ("POST", "players.message")),
    ([.lit "", .lit "api", .lit "players", .wild, .lit "whitelist"], ("POST", "players.whitelist")),
    ([.lit "", .lit "api", .lit "players", .wild, .lit "whitelist"], ("DELETE", "players.whitelist")),
    ([.lit "", .lit "api", .lit "players", .wild, .lit "op"], ("POST", "players.op")),
    ([.lit "", .lit "api", .lit "players", .wild, .lit "op"], ("DELETE", "players.op")),
    ([.lit "", .lit "api", .lit "players", .wild, .lit "respawn"], ("POST", "players.respawn")),
    ([.lit "", .lit "api", .lit "players", .wild, .lit "deaths"], ("POST", "players.edit")),
    ([.lit "", .lit "api", .lit "auth", .lit "users", .wild], ("PUT", "users.edit")),
    ([.lit "", .lit "api", .lit "auth", .lit "users", .wild], ("DELETE", "users.delete")),
    ([.lit "", .lit "api", .lit "roles", .wild], ("PUT", "roles.manage")),
    ([.lit "", .lit "api", .lit "roles", .wild], ("DELETE", "roles.manage")),
    ([.lit "", .lit "api", .lit "backups", .wild], ("DELETE", "backups.delete")),
    ([.lit "", .lit "api", .lit "backups", .wild, .lit "restore"], ("POST", "backups.restore")),
    ([.lit "", .lit "api", .lit "scheduler", .lit "tasks", .wild], ("PUT", "scheduler.edit")),
    ([.lit "", .lit "api", .lit "scheduler", .lit "tasks", .wild], ("DELETE", "scheduler.edit")),
    ([.lit "", .lit "api", .lit "scheduler", .lit "quick-commands", .wild], ("PUT", "scheduler.edit")),
    ([.lit "", .lit "api", .lit "scheduler", .lit "quick-commands", .wild], ("DELETE", "scheduler.edit")),
    ([.lit "", .lit "api", .lit "scheduler", .lit "quick-commands", .wild, .lit "execute"], ("POST", "scheduler.edit")),
    ([.lit "", .lit "api", .lit "management", .lit "whitelist", .wild], ("DELETE", "players.whitelist")),
    ([.lit "", .lit "api", .lit "management", .lit "bans", .wild], ("DELETE", "players.unban")),
    ([.lit "", .lit "api", .lit "management", .lit "permissions", .lit "users", .wild], ("DELETE", "players.permissions")),
    ([.lit "", .lit "api", .lit "management", .lit "permissions", .lit "groups", .wild], ("DELETE", "players.permissions")),
    ([.lit "", .lit "api", .lit "server", .lit "config", .wild], ("PUT", "config.edit")),
    ([.lit "", .lit "api", .lit "management", .lit "mods", .wild], ("DELETE", "mods.delete")),
    ([.lit "", .lit "api", .lit "management", .lit "plugins", .wild], ("DELETE", "plugins.delete")) ]

/-- Step 1 of `getRouteAction`: exact lookup
(`ROUTE_ACTION_MAP[path]` then `routeMap[method]`). -/
def exactAction (path method : String) : Option String :=
  match alookup ROUTE_ACTION_MAP path with
  | some routeMap => alookup routeMap method
  | none => none

/-- Step 2 of `getRouteAction`: iterate `Object.entries(ROUTE_ACTION_MAP)` in
declaration order, compile each key to an anchored pattern, and return the
method's action for the first key whose pattern matches the path and whose
method map contains the method. -/
def loopAction (path method : String) : Option String :=
  ROUTE_ACTION_MAP.findSome? fun e =>
    if patMatch (keyPattern e.1) path then alookup e.2 method else none

/-- Step 3 of `getRouteAction`: the hard-coded fallback predicates, first hit
wins. -/
def fallbackAction (path method : String) : Option String :=
  FALLBACK_RULES.findSome? fun r =>
    if patMatch r.1 path then (if method = r.2.1 then some r.2.2 else none) else none

/-- `getRouteAction` from `middleware/demo.ts`: exact match, then key-pattern
loop, then hard-coded fallback predicates, else `null`. -/
def getRouteAction (path method : String) : Option String :=
  match exactAction path method with
  | some a => some a
  | none =>
    match loopAction path method with
    | some a => some a
    | none => fallbackAction path method

/-- The variant of `getRouteAction` with the pattern-iteration loop (step 2)
removed: exact lookup, then the hard-coded fallback predicates. Introduced for
the redundancy claim about the loop. -/
def getRouteActionNoLoop (path method : String) : Option String :=
  match exactAction path method with
  | some a => some a
  | none => fallbackAction path method

/-! ## Demo service (`services/demo.ts`) -/

/-- The `config.demoMode` collaborator (`{ enabled, resetIntervalHours,
simulatedActions }`, read-only, loaded once at process start). -/
structure DemoConfig where
  enabled : Bool
  resetIntervalHours : Nat
  simulatedActions : List String
deriving DecidableEq

/-- `isDemoModeEnabled`: `config.demoMode.enabled`. -/
def isDemoModeEnabled (cfg : DemoConfig) : Bool :=
  cfg.enabled

/-- `isDemoUser`: `username === '__demo__'` (an absent username is a distinct
value, never equal to the sentinel). -/
def isDemoUser (username : Option String) : Bool :=
  username = some "__demo__"

/-- `shouldSimulateAction`: `config.demoMode.simulatedActions.includes(action)`. -/
def shouldSimulateAction (cfg : DemoConfig) (action : String) : Bool :=
  cfg.simulatedActions.contains action

/-- The `messages` table of `createSimulatedResponse`. -/
def DEMO_MESSAGES : List (String × String) :=
  [ ("server.start", "Server wird gestartet... (Demo)"),
    ("server.stop", "Server wird gestoppt... (Demo)"),
    ("server.restart", "Server wird neugestartet... (Demo)"),
    ("console.execute", "Befehl ausgeführt (Demo)"),
    ("players.kick", "Spieler wurde gekickt (Demo)"),
    ("players.ban", "Spieler wurde gebannt (Demo)"),
    ("players.unban", "Spieler wurde entbannt (Demo)"),
    ("players.whitelist", "Whitelist aktualisiert (Demo)"),
    ("players.op", "Operator-Status geändert (Demo)"),
    ("players.permissions", "Berechtigungen aktualisiert (Demo)"),
    ("players.teleport", "Spieler wurde teleportiert (Demo)"),
    ("players.kill", "Spieler wurde getötet (Demo)"),
    ("players.respawn", "Spieler wird respawnt (Demo)"),
    ("players.heal", "Spieler wurde geheilt (Demo)"),
    ("players.gamemode", "Spielmodus geändert (Demo)"),
    ("players.give", "Item gegeben (Demo)"),
    ("players.effects", "Effekt angewendet (Demo)"),
    ("players.clear_inventory", "Inventar geleert (Demo)"),
    ("players.message", "Nachricht gesendet (Demo)"),
    ("players.edit", "Spielerdaten aktualisiert (Demo)"),
    ("backups.create", "Backup wird erstellt... (Demo)"),
    ("backups.restore", "Backup wird wiederhergestellt... (Demo)"),
    ("backups.delete", "Backup gelöscht (Demo)"),
    ("scheduler.edit", "Zeitplan aktualisiert (Demo)"),
    ("worlds.manage", "Welt-Einstellungen gespeichert (Demo)"),
    ("mods.install", "Mod installiert (Demo)"),
    ("mods.delete", "Mod gelöscht (Demo)"),
    ("mods.config", "Mod-Konfiguration gespeichert (Demo)"),
    ("mods.toggle", "Mod Status geändert (Demo)"),
    ("plugins.install", "Plugin installiert (Demo)"),
    ("plugins.delete", "Plugin gelöscht (Demo)"),
    ("plugins.config", "Plugin-Konfiguration gespeichert (Demo)"),
    ("plugins.toggle", "Plugin Status geändert (Demo)"),
    ("config.edit", "Konfiguration gespeichert (Demo)"),
    ("assets.manage", "Assets aktualisiert (Demo)"),
    ("users.create", "Benutzer erstellt (Demo)"),
    ("users.edit", "Benutzer aktualisiert (Demo)"),
    ("users.delete", "Benutzer gelöscht (Demo)"),
    ("roles.manage", "Rolle aktualisiert (Demo)"),
    ("settings.edit", "Einstellungen gespeichert (Demo)"),
    ("hytale_auth.manage", "Authentifizierung aktualisiert (Demo)"),
    ("chat.send", "Nachricht gesendet (Demo)") ]

/-- JS string truthiness as used by `a || b`: an absent (`undefined`/`null`)
or empty string falls through to the alternative. -/
def strOrElse (a : Option String) (b : String) : String :=
  match a with
  | some s => if s = "" then b else s
  | none => b

/-- The simulated response envelope (`SimulatedResponse` in `types/demo.ts`). -/
structure SimResponse where
  success : Bool
  message : String
  simulated : Bool
deriving DecidableEq

/-- `createSimulatedResponse(action, customMessage?)`:
`{ success: true, message: customMessage || messages[action] || 'Aktion ausgeführt (Demo)', simulated: true }`. -/
def createSimulatedResponse (action : String) (customMessage : Option String) : SimResponse :=
  { success := true
    message := strOrElse customMessage
      (strOrElse (alookup DEMO_MESSAGES action) "Aktion ausgeführt (Demo)")
    simulated := true }

/-- A `DemoSession` record; timestamps are milliseconds since epoch
(`Date.getTime()`). -/
structure DemoSession where
  username : String
  createdAt : Nat
  expiresAt : Nat
  sessionId : String
deriving DecidableEq

/-- `Map.set`: replace the binding of an existing key in place, else append. -/
def mapSet (m : List (String × DemoSession)) (k : String) (v : DemoSession) :
    List (String × DemoSession) :=
  if m.any (fun e => e.1 = k) then
    m.map (fun e => if e.1 = k then (k, v) else e)
  else
    m ++ [(k, v)]

/-- The session-store effect of `createDemoLogin` at time `now` with the
generated session id `sid`: insert a session for the sentinel user expiring
24 hours after creation (`now + 24*60*60*1000`). Token creation and the login
response are external collaborators and carry no session-store state. -/
def createDemoLogin (now : Nat) (sid : String) (store : List (String × DemoSession)) :
    List (String × DemoSession) :=
  mapSet store sid
    { username := "__demo__", createdAt := now, expiresAt := now + 24 * 60 * 60 * 1000,
      sessionId := sid }

/-- The eviction sweep inside `getActiveDemoSessionCount`: delete every entry
with `session.expiresAt < now` (deleting from a JS `Map` while iterating its
entries is well-defined and equals a filter). -/
def sweepSessions (now : Nat) (store : List (String × DemoSession)) :
    List (String × DemoSession) :=
  store.filter fun e => !(decide (e.2.expiresAt < now))

/-- `getActiveDemoSessionCount`: sweep expired sessions, then return the store
size; the result is the mutated store together with the returned count. -/
def getActiveDemoSessionCount (now : Nat) (store : List (String × DemoSession)) :
    List (String × DemoSession) × Nat :=
  (sweepSessions now store, (sweepSessions now store).length)

/-- The module-level `resetState` record (`DemoResetState` in `types/demo.ts`);
`none` models `null`. -/
structure DemoResetState where
  lastReset : Option Nat
  nextReset : Option Nat
  resetIntervalHours : Nat
deriving DecidableEq

/-- The mutable state of `services/demo.ts`: the `demoSessions` map and the
`resetState` record. -/
structure DemoState where
  sessions : List (String × DemoSession)
  reset : DemoResetState
deriving DecidableEq

/-- `performDemoReset`: clear all demo sessions, then set
`lastReset := now` and `nextReset := now + resetIntervalHours * 60*60*1000`
(the `resetIntervalHours` field of the record is left unchanged). -/
def performDemoReset (cfg : DemoConfig) (now : Nat) (st : DemoState) : DemoState :=
  { sessions := []
    reset :=
      { lastReset := some now
        nextReset := some (now + cfg.resetIntervalHours * 60 * 60 * 1000)
        resetIntervalHours := st.reset.resetIntervalHours } }

/-- The state effect of `initializeDemoReset`: a no-op when demo mode is
disabled; otherwise set `lastReset := now` and
`nextReset := now + resetIntervalHours * 60*60*1000`. (Arming the repeating
`setInterval` timer is a real-time side effect outside this state model.) -/
def initializeDemoReset (cfg : DemoConfig) (now : Nat) (st : DemoState) : DemoState :=
  if cfg.enabled then
    { st with
      reset :=
        { lastReset := some now
          nextReset := some (now + cfg.resetIntervalHours * 60 * 60 * 1000)
          resetIntervalHours := st.reset.resetIntervalHours } }
  else st

/-! ## Middleware (`middleware/demo.ts`) -/

/-- Char-list test that `pre` is a prefix of `s`; used to model
`String.prototype.startsWith` (for the ASCII prefix `'Bearer '` the UTF-16
view of JS and the character view agree). -/
def leadsWith : List Char → List Char → Bool
  | [], _ => true
  | _ :: _, [] => false
  | a :: as, b :: bs => a = b && leadsWith as bs

/-- `extractUserFromToken(authHeader)`: `null` when the header is absent,
empty, or does not start with `'Bearer '`; otherwise delegate the rest of the
header (`substring(7)`) to the external `verifyToken(token, 'access')`
collaborator and return `result?.username || null`. `verify` is the token
verifier's behavior (`none` = invalid/expired token). -/
def extractUserFromToken (verify : String → Option String) (authHeader : Option String) :
    Option String :=
  match authHeader with
  | none => none
  | some h =>
    if leadsWith "Bearer ".data h.data then
      match verify (String.mk (h.data.drop 7)) with
      | some u => if u = "" then none else some u
      | none => none
    else none

/-- The request fields consumed and produced by the middleware
(`DemoAuthenticatedRequest`): an optional identity attached earlier in the
pipeline, the `Authorization` header, path, method, and the demo marker. -/
structure DemoRequest where
  user : Option String
  authorization : Option String
  path : String
  method : String
  isDemo : Bool
deriving DecidableEq

/-- The outcome of one middleware run: exactly one of passing the (possibly
enriched) request to `next`, or writing a JSON body via `res.json` without
calling `next`. -/
inductive MiddlewareResult where
  | next (req : DemoRequest)
  | json (req : DemoRequest) (body : SimResponse)
deriving DecidableEq

/-- JS string truthiness for `a || b || undefined` over optional strings. -/
def strOrOpt (a b : Option String) : Option String :=
  match a with
  | some s => if s = "" then (match b with | some t => if t = "" then none else some t | none => none) else some s
  | none => (match b with | some t => if t = "" then none else some t | none => none)

/-- `demoMiddleware(req, res, next)`: skip when demo mode is disabled; resolve
the caller (`req.user || extractUserFromToken(req.headers.authorization) ||
undefined`); skip when not the demo sentinel; otherwise mark the request
(`isDemo = true`, `user = username`), resolve the route action, and either
pass through (unmapped or non-simulated action) or answer with the simulated
envelope. -/
def demoMiddleware (cfg : DemoConfig) (verify : String → Option String)
    (req : DemoRequest) : MiddlewareResult :=
  if !isDemoModeEnabled cfg then
    .next req
  else
    let username := strOrOpt req.user (extractUserFromToken verify req.authorization)
    if !isDemoUser username then
      .next req
    else
      let req' := { req with isDemo := true, user := username }
      match getRouteAction req'.path req'.method with
      | none => .next req'
      | some action =>
        if !shouldSimulateAction cfg action then
          .next req'
        else
          .json req' (createSimulatedResponse action none)

/-! ## Auxiliary pattern notions for the route-resolution proofs -/

/-- Shape test for a five-segment path `/<a>/<b>/<c>/<anything>/<d>`. -/
def shape5 (a b c d : String) : List String → Bool
  | [x0, x1, x2, _, x4] => x0 = a && x1 = b && x2 = c && x4 = d
  | _ => false

/-- Whether two pattern segments can both match one path segment. -/
def segCompat : Seg → Seg → Bool
  | Seg.lit a, Seg.lit b => a = b
  | Seg.lit a, Seg.wild => !(a = "")
  | Seg.wild, Seg.lit b => !(b = "")
  | Seg.wild, Seg.wild => true

/-- Whether two patterns can both match one path (segment-wise). -/
def patsCompat : List Seg → List Seg → Bool
  | [], [] => true
  | p :: ps, q :: qs => segCompat p q && patsCompat ps qs
  | _, _ => false

/-- A fallback rule fires on a request: its pattern matches the path and its
method is the request method. -/
def fbHit (r : List Seg × String × String) (path method : String) : Prop :=
  patMatch r.1 path = true ∧ method = r.2.1

/-! ## Path-segment lemmas -/

theorem splitSegs_ne_nil (cs : List Char) : splitSegs cs ≠ [] := by
  cases cs with
  | nil => simp [splitSegs]
  | cons c cs =>
    unfold splitSegs
    by_cases h : c = '/'
    · simp [h]
    · simp only [h, if_false]
      cases hs : splitSegs cs <;> simp

theorem joinSegs_splitSegs (cs : List Char) : joinSegs (splitSegs cs) = cs := by
  induction cs with
  | nil => rfl
  | cons c cs ih =>
    unfold splitSegs
    by_cases h : c = '/'
    · subst h
      simp only [if_pos rfl]
      cases hs : splitSegs cs with
      | nil => exact absurd hs (splitSegs_ne_nil cs)
      | cons x xs =>
        rw [hs] at ih
        show joinSegs ("" :: x :: xs) = '/' :: cs
        show "".data ++ '/' :: joinSegs (x :: xs) = '/' :: cs
        rw [ih]
        rfl
    · rw [if_neg h]
      cases hs : splitSegs cs with
      | nil => exact absurd hs (splitSegs_ne_nil cs)
      | cons x xs =>
        rw [hs] at ih
        cases xs with
        | nil =>
          show (String.mk (c :: x.data)).data = c :: cs
          show c :: x.data = c :: cs
          rw [show joinSegs [x] = x.data from rfl] at ih
          rw [ih]
        | cons y ys =>
          show (String.mk (c :: x.data)).data ++ '/' :: joinSegs (y :: ys) = c :: cs
          show c :: (x.data ++ '/' :: joinSegs (y :: ys)) = c :: cs
          rw [show joinSegs (x :: y :: ys) = x.data ++ '/' :: joinSegs (y :: ys) from rfl] at ih
          rw [ih]

theorem pathSegs_inj {p q : String} (h : pathSegs p = pathSegs q) : p = q := by
  apply String.ext
  rw [← joinSegs_splitSegs p.data, ← joinSegs_splitSegs q.data]
  exact congrArg joinSegs h

theorem strMk_data (s : String) : String.mk s.data = s :=
  String.ext rfl

theorem segsMatch_lits (xs ys : List String) :
    segsMatch (xs.map Seg.lit) ys = true ↔ ys = xs := by
  induction xs generalizing ys with
  | nil => cases ys <;> simp [segsMatch]
  | cons x xs ih =>
    cases ys with
    | nil => simp [segsMatch]
    | cons y ys =>
      simp only [List.map_cons, segsMatch]
      by_cases h : y = x
      · subst h
        simp [ih]
      · simp [h]

theorem keyPattern_eq_of_noColon (k : String)
    (h : ∀ seg ∈ pathSegs k, startsWithColon seg = false) :
    keyPattern k = (pathSegs k).map Seg.lit := by
  unfold keyPattern
  apply List.map_congr_left
  intro seg hseg
  simp [h seg hseg]

/-- No key of `ROUTE_ACTION_MAP` has a segment starting with `':'`. -/
theorem routeMap_noColon :
    ROUTE_ACTION_MAP.all
      (fun e => (pathSegs e.1).all (fun seg => !(startsWithColon seg))) = true := by decide

/-- The keys of `ROUTE_ACTION_MAP` are pairwise distinct (JS object literal). -/
theorem routeMap_keys_nodup : (ROUTE_ACTION_MAP.map Prod.fst).Nodup := by decide

theorem alookup_cons {α : Type} (k : String) (v : α) (rest : List (String × α)) (key : String) :
    alookup ((k, v) :: rest) key = if key = k then some v else alookup rest key := rfl

theorem alookup_none {α : Type} (m : List (String × α)) (key : String)
    (h : ∀ e ∈ m, key ≠ e.1) : alookup m key = none := by
  induction m with
  | nil => rfl
  | cons e rest ih =>
    obtain ⟨k, v⟩ := e
    rw [alookup_cons, if_neg (h (k, v) (by simp))]
    exact ih fun e he => h e (List.mem_cons_of_mem _ he)

/-- The key-pattern loop of `getRouteAction` computes exactly the exact-match
lookup: since no key has a parameter segment, each compiled pattern matches
only the key itself. -/
theorem loopAction_eq_exactAction (path method : String) :
    loopAction path method = exactAction path method := by
  unfold loopAction exactAction
  have hgen :
      ∀ (m : List (String × List (String × String))),
        (m.map Prod.fst).Nodup →
        (∀ e ∈ m, ∀ seg ∈ pathSegs e.1, startsWithColon seg = false) →
        (m.findSome? fun e =>
            if patMatch (keyPattern e.1) path then alookup e.2 method else none) =
          (match alookup m path with
           | some routeMap => alookup routeMap method
           | none => none) := by
    intro m
    induction m with
    | nil => intro _ _; rfl
    | cons e rest ih =>
      intro hnd hnc
      obtain ⟨k, mm⟩ := e
      have hkp : keyPattern k = (pathSegs k).map Seg.lit :=
        keyPattern_eq_of_noColon _ (hnc (k, mm) (by simp))
      have hpm : patMatch (keyPattern k) path = true ↔ path = k := by
        rw [hkp]
        unfold patMatch
        rw [segsMatch_lits]
        exact ⟨fun hh => pathSegs_inj hh, fun hh => by rw [hh]⟩
      rw [List.findSome?_cons, alookup_cons]
      by_cases hpk : path = k
      · simp only [hpm.mpr hpk, if_true, if_pos hpk]
        cases ha : alookup mm method with
        | some a => simp [ha]
        | none =>
          simp only [ha]
          rw [List.findSome?_eq_none_iff]
          intro e' he'
          have hk' : k ∉ rest.map Prod.fst := by
            rw [List.map_cons] at hnd
            exact (List.nodup_cons.mp hnd).1
          have hne : path ≠ e'.1 := by
            intro heq
            apply hk'
            rw [← hpk, heq]
            exact List.mem_map_of_mem Prod.fst he'
          have hkp' : keyPattern e'.1 = (pathSegs e'.1).map Seg.lit :=
            keyPattern_eq_of_noColon _ (hnc e' (List.mem_cons_of_mem _ he'))
          have hpf : patMatch (keyPattern e'.1) path = false := by
            rw [hkp']
            unfold patMatch
            rw [Bool.eq_false_iff]
            intro hh
            exact hne (pathSegs_inj ((segsMatch_lits _ _).mp hh))
          simp [hpf]
      · have hpf : patMatch (keyPattern k) path = false := by
          rw [Bool.eq_false_iff]
          exact fun hh => hpk (hpm.mp hh)
        simp only [hpf, Bool.false_eq_true, if_false, if_neg hpk]
        rw [List.map_cons] at hnd
        exact ih (List.nodup_cons.mp hnd).2
          (fun e he => hnc e (List.mem_cons_of_mem _ he))
  refine hgen ROUTE_ACTION_MAP routeMap_keys_nodup ?_
  intro e he seg hseg
  have h1 := (List.all_eq_true.mp routeMap_noColon) e he
  have h2 := (List.all_eq_true.mp h1) seg hseg
  simpa using h2

theorem splitSegs_cons (c : Char) (l : List Char) :
    splitSegs (c :: l) =
      if c = '/' then "" :: splitSegs l
      else
        match splitSegs l with
        | s :: ss => String.mk (c :: s.data) :: ss
        | [] => [String.mk [c]] := rfl

theorem splitSegs_append_slash (cs rest : List Char) (h : '/' ∉ cs) :
    splitSegs (cs ++ '/' :: rest) = String.mk cs :: splitSegs rest := by
  induction cs with
  | nil => simp [splitSegs]
  | cons c cs ih =>
    have hc : c ≠ '/' := fun hh => h (hh ▸ List.mem_cons_self c cs)
    have hcs : '/' ∉ cs := fun hh => h (List.mem_cons_of_mem c hh)
    rw [List.cons_append, splitSegs_cons, if_neg hc, ih hcs]

theorem splitSegs_noslash (cs : List Char) (h : '/' ∉ cs) :
    splitSegs cs = [String.mk cs] := by
  induction cs with
  | nil => rfl
  | cons c cs ih =>
    have hc : c ≠ '/' := fun hh => h (hh ▸ List.mem_cons_self c cs)
    have hcs : '/' ∉ cs := fun hh => h (List.mem_cons_of_mem c hh)
    rw [splitSegs_cons, if_neg hc, ih hcs]

/-- Segments of a player sub-action path `/api/players/<s>/<last>` for a
parameter segment `s` without separators. -/
theorem pathSegs_player_sub (s last : String) (hs : '/' ∉ s.data) (hl : '/' ∉ last.data) :
    pathSegs ("/api/players/" ++ s ++ ("/" ++ last)) = ["", "api", "players", s, last] := by
  unfold pathSegs
  have hdata : ("/api/players/" ++ s ++ ("/" ++ last)).data =
      [] ++ '/' :: (['a', 'p', 'i'] ++ '/' :: (['p', 'l', 'a', 'y', 'e', 'r', 's'] ++ '/' ::
        (s.data ++ '/' :: last.data))) := by
    have h1 : "/api/players/".data = ['/', 'a', 'p', 'i', '/', 'p', 'l', 'a', 'y', 'e', 'r', 's', '/'] := rfl
    have h2 : "/".data = ['/'] := rfl
    simp [h1, h2]
  rw [hdata,
    splitSegs_append_slash [] _ (by simp),
    splitSegs_append_slash ['a', 'p', 'i'] _ (by decide),
    splitSegs_append_slash ['p', 'l', 'a', 'y', 'e', 'r', 's'] _ (by decide),
    splitSegs_append_slash s.data _ hs,
    splitSegs_noslash last.data hl,
    strMk_data, strMk_data]

theorem alookup_none_of_shape5 {α : Type} (m : List (String × α)) (a b c d s : String)
    (hall : m.all (fun e => !(shape5 a b c d (pathSegs e.1))) = true)
    (key : String) (hkey : pathSegs key = [a, b, c, s, d]) :
    alookup m key = none := by
  apply alookup_none
  intro e he heq
  have h1 : (!(shape5 a b c d (pathSegs e.1))) = true := List.all_eq_true.mp hall e he
  rw [← heq, hkey] at h1
  simp [shape5] at h1

/-- No key of `ROUTE_ACTION_MAP` has the shape `/api/players/<x>/kick` or
`/api/players/<x>/ban`. -/
theorem routeMap_no_player_sub :
    (ROUTE_ACTION_MAP.all (fun e => !(shape5 "" "api" "players" "kick" (pathSegs e.1))) = true) ∧
    (ROUTE_ACTION_MAP.all (fun e => !(shape5 "" "api" "players" "ban" (pathSegs e.1))) = true) := by
  decide

theorem exactAction_player_sub_none (s last m : String) (hs : '/' ∉ s.data) (hl : '/' ∉ last.data)
    (hall : ROUTE_ACTION_MAP.all (fun e => !(shape5 "" "api" "players" last (pathSegs e.1))) = true) :
    exactAction ("/api/players/" ++ s ++ ("/" ++ last)) m = none := by
  unfold exactAction
  rw [alookup_none_of_shape5 ROUTE_ACTION_MAP "" "api" "players" last s hall _
    (pathSegs_player_sub s last hs hl)]

theorem getRouteAction_player_kick (s : String) (hne : s ≠ "") (hs : '/' ∉ s.data) :
    getRouteAction ("/api/players/" ++ s ++ "/kick") "POST" = some "players.kick" := by
  have hsplit : ("/kick" : String) = "/" ++ "kick" := by decide
  rw [hsplit]
  unfold getRouteAction
  rw [loopAction_eq_exactAction,
    exactAction_player_sub_none s "kick" "POST" hs (by decide) routeMap_no_player_sub.1]
  show fallbackAction ("/api/players/" ++ s ++ ("/" ++ "kick")) "POST" = some "players.kick"
  unfold fallbackAction
  simp only [patMatch, pathSegs_player_sub s "kick" hs (by decide)]
  simp [FALLBACK_RULES, List.findSome?_cons, segsMatch, hne]

theorem getRouteAction_player_ban (s : String) (hne : s ≠ "") (hs : '/' ∉ s.data) :
    getRouteAction ("/api/players/" ++ s ++ "/ban") "DELETE" = some "players.unban" := by
  have hsplit : ("/ban" : String) = "/" ++ "ban" := by decide
  rw [hsplit]
  unfold getRouteAction
  rw [loopAction_eq_exactAction,
    exactAction_player_sub_none s "ban" "DELETE" hs (by decide) routeMap_no_player_sub.2]
  show fallbackAction ("/api/players/" ++ s ++ ("/" ++ "ban")) "DELETE" = some "players.unban"
  unfold fallbackAction
  simp only [patMatch, pathSegs_player_sub s "ban" hs (by decide)]
  simp [FALLBACK_RULES, List.findSome?_cons, segsMatch, hne]

/-! ## Exclusivity of the pattern rules -/

theorem patsCompat_of_match (p q : List Seg) (ss : List String)
    (hp : segsMatch p ss = true) (hq : segsMatch q ss = true) :
    patsCompat p q = true := by
  induction p generalizing q ss with
  | nil =>
    cases ss with
    | nil => cases q with
      | nil => rfl
      | cons y ys => simp [segsMatch] at hq
    | cons x xs => simp [segsMatch] at hp
  | cons pseg ps ih =>
    cases ss with
    | nil => cases pseg <;> simp [segsMatch] at hp
    | cons x xs =>
      cases q with
      | nil => simp [segsMatch] at hq
      | cons qseg qs =>
        cases pseg with
        | lit a =>
          by_cases hxa : x = a
          · subst hxa
            rw [segsMatch, if_pos rfl] at hp
            cases qseg with
            | lit b =>
              by_cases hxb : x = b
              · subst hxb
                rw [segsMatch, if_pos rfl] at hq
                simp [patsCompat, segCompat, ih _ _ hp hq]
              · rw [segsMatch, if_neg hxb] at hq
                exact absurd hq (by simp)
            | wild =>
              by_cases hx0 : x = ""
              · rw [segsMatch, if_pos hx0] at hq
                exact absurd hq (by simp)
              · rw [segsMatch, if_neg hx0] at hq
                simp [patsCompat, segCompat, ih _ _ hp hq, hx0]
          · rw [segsMatch, if_neg hxa] at hp
            exact absurd hp (by simp)
        | wild =>
          by_cases hx0 : x = ""
          · rw [segsMatch, if_pos hx0] at hp
            exact absurd hp (by simp)
          · rw [segsMatch, if_neg hx0] at hp
            cases qseg with
            | lit b =>
              by_cases hxb : x = b
              · subst hxb
                rw [segsMatch, if_pos rfl] at hq
                simp [patsCompat, segCompat, ih _ _ hp hq, hx0]
              · rw [segsMatch, if_neg hxb] at hq
                exact absurd hq (by simp)
            | wild =>
              rw [segsMatch, if_neg hx0] at hq
              simp [patsCompat, segCompat, ih _ _ hp hq]

/-- No two distinct fallback rules share a method and a compatible pattern:
any (path, method) pair is matched by at most one hard-coded rule. -/
theorem fallback_rules_exclusive :
    FALLBACK_RULES.all (fun r1 => FALLBACK_RULES.all (fun r2 =>
      decide (r1 = r2) || !(decide (r1.2.1 = r2.2.1)) || !(patsCompat r1.1 r2.1))) = true := by
  decide

theorem fbHit_unique {r1 r2 : List Seg × String × String} {path method : String}
    (h1 : r1 ∈ FALLBACK_RULES) (h2 : r2 ∈ FALLBACK_RULES)
    (hit1 : fbHit r1 path method) (hit2 : fbHit r2 path method) : r1 = r2 := by
  have hx := (List.all_eq_true.mp ((List.all_eq_true.mp fallback_rules_exclusive) r1 h1)) r2 h2
  have hcompat : patsCompat r1.1 r2.1 = true :=
    patsCompat_of_match _ _ _ hit1.1 hit2.1
  have hmeth : r1.2.1 = r2.2.1 := by rw [← hit1.2, ← hit2.2]
  simp [hcompat, hmeth] at hx
  exact hx

theorem findSome?_eq_of_unique {α β : Type} (l : List α) (f : α → Option β) (r : α) (b : β)
    (hmem : r ∈ l) (hr : f r = some b) (huniq : ∀ r' ∈ l, f r' ≠ none → r' = r) :
    l.findSome? f = some b := by
  induction l with
  | nil => cases hmem
  | cons a t ih =>
    rw [List.findSome?_cons]
    cases hfa : f a with
    | some c =>
      have ha : a = r := huniq a (List.mem_cons_self a t) (by simp [hfa])
      rw [ha, hr] at hfa
      rw [← hfa]
    | none =>
      have hrt : r ∈ t := by
        cases List.mem_cons.mp hmem with
        | inl h => rw [h] at hr; rw [hr] at hfa; cases hfa
        | inr h => exact h
      exact ih hrt fun r' hr' => huniq r' (List.mem_cons_of_mem a hr')

/-! ## Session-store lemmas -/

theorem mem_mapSet_self (m : List (String × DemoSession)) (k : String) (v : DemoSession) :
    (k, v) ∈ mapSet m k v := by
  unfold mapSet
  split
  · rename_i hany
    obtain ⟨e, he, hek⟩ := List.any_eq_true.mp hany
    apply List.mem_map.mpr
    exact ⟨e, he, by simp [of_decide_eq_true hek]⟩
  · exact List.mem_append_right _ (by simp)

theorem mapSet_key_eq (m : List (String × DemoSession)) (k : String) (v : DemoSession) :
    ∀ e ∈ mapSet m k v, e.1 = k → e = (k, v) := by
  unfold mapSet
  split
  · intro e he hk
    obtain ⟨a, ha, hae⟩ := List.mem_map.mp he
    by_cases h : a.1 = k
    · rw [if_pos h] at hae
      exact hae.symm
    · rw [if_neg h] at hae
      rw [← hae] at hk
      exact absurd hk h
  · intro e he hk
    rename_i hany
    rcases List.mem_append.mp he with h | h
    · exfalso
      apply hany
      exact List.any_eq_true.mpr ⟨e, h, by simp [hk]⟩
    · exact List.mem_singleton.mp h

/-! ## The claims -/

/-- C1: with demo mode enabled, the demo-sentinel identity attached to the
request, and `backups.create` in the configured simulated-action list,
`demoMiddleware` on `POST /api/backups` writes exactly the body
`{ success: true, message: <configured message>, simulated: true }` (the
configured message for `backups.create`) and never invokes the downstream
handler (`next` is not called — the run ends in the `json` outcome). -/
theorem c1_demo_backups_post_simulated (cfg : DemoConfig) (verify : String → Option String)
    (auth : Option String) (d : Bool)
    (hen : isDemoModeEnabled cfg = true)
    (hsim : "backups.create" ∈ cfg.simulatedActions) :
    demoMiddleware cfg verify ⟨some "__demo__", auth, "/api/backups", "POST", d⟩ =
      MiddlewareResult.json ⟨some "__demo__", auth, "/api/backups", "POST", true⟩
        { success := true, message := "Backup wird erstellt... (Demo)", simulated := true } ∧
    alookup DEMO_MESSAGES "backups.create" = some "Backup wird erstellt... (Demo)" := by
  constructor
  · have hra : getRouteAction "/api/backups" "POST" = some "backups.create" := by decide
    have hsim' : shouldSimulateAction cfg "backups.create" = true := by
      have he : cfg.simulatedActions.elem "backups.create" = true := List.elem_iff.mpr hsim
      exact he
    have hresp : createSimulatedResponse "backups.create" none =
        { success := true, message := "Backup wird erstellt... (Demo)", simulated := true } := by
      decide
    simp [demoMiddleware, hen, strOrOpt, isDemoUser, hra, hsim', hresp]
  · decide

/-- C1 witness: a concrete run of the middleware hitting the simulation path. -/
theorem c1_demo_backups_post_simulated_witness :
    demoMiddleware ⟨true, 6, ["backups.create"]⟩ (fun _ => none)
      ⟨some "__demo__", none, "/api/backups", "POST", false⟩ =
      MiddlewareResult.json ⟨some "__demo__", none, "/api/backups", "POST", true⟩
        { success := true, message := "Backup wird erstellt... (Demo)", simulated := true } ∧
    alookup DEMO_MESSAGES "backups.create" = some "Backup wird erstellt... (Demo)" :=
  c1_demo_backups_post_simulated ⟨true, 6, ["backups.create"]⟩ (fun _ => none) none false rfl
    (by decide)

/-- C2 counterexample: `shouldSimulateAction` itself never consults the
enabled flag — with demo mode disabled but `server.start` in the
simulated-action list it still returns `true`, refuting the claim that the
simulate decision is `false` whenever `isDemoModeEnabled()` is `false`. -/
theorem c2_counterexample :
    isDemoModeEnabled ⟨false, 6, ["server.start"]⟩ = false ∧
    shouldSimulateAction ⟨false, 6, ["server.start"]⟩ "server.start" = true := by decide

/-- C2 (amended): `shouldSimulateAction` checks only membership in the
configured simulated-action list; the disabled-mode guard lives one level up:
whenever `isDemoModeEnabled()` is `false`, `demoMiddleware` passes every
request through unchanged (calls `next`), so no simulation ever fires for any
identity or action while demo mode is disabled. -/
theorem c2_disabled_never_simulates (cfg : DemoConfig) (verify : String → Option String)
    (req : DemoRequest) (hdis : isDemoModeEnabled cfg = false) :
    demoMiddleware cfg verify req = MiddlewareResult.next req ∧
    ∀ action, shouldSimulateAction cfg action = cfg.simulatedActions.contains action := by
  constructor
  · unfold demoMiddleware
    rw [hdis]
    rfl
  · intro action
    rfl

/-- C2 witness: with demo mode disabled the middleware passes through even a
demo-sentinel request to a simulated action. -/
theorem c2_disabled_never_simulates_witness :
    demoMiddleware ⟨false, 6, ["server.start"]⟩ (fun _ => none)
      ⟨some "__demo__", none, "/api/server/start", "POST", false⟩ =
      MiddlewareResult.next ⟨some "__demo__", none, "/api/server/start", "POST", false⟩ :=
  (c2_disabled_never_simulates ⟨false, 6, ["server.start"]⟩ (fun _ => none)
    ⟨some "__demo__", none, "/api/server/start", "POST", false⟩ rfl).1

/-- C3: route-to-action resolution obeys the stated precedence and is
deterministic. (1) An exact literal `(path, method)` entry is returned before
any pattern rule is consulted. (2) No two distinct pattern rules can fire on
the same `(path, method)` — so among pattern rules matching a path the winner
is trivially both the most specific matching rule and the first in
declaration order. (3) When the exact table misses, the result is exactly the
unique firing pattern rule's action. Resolution is a pure function of
`(path, method)`, hence deterministic. -/
theorem c3_resolution_precedence :
    (∀ path method a, exactAction path method = some a →
      getRouteAction path method = some a) ∧
    (∀ path method r1 r2, r1 ∈ FALLBACK_RULES → r2 ∈ FALLBACK_RULES →
      fbHit r1 path method → fbHit r2 path method → r1 = r2) ∧
    (∀ path method r, r ∈ FALLBACK_RULES → fbHit r path method →
      exactAction path method = none → getRouteAction path method = some r.2.2) := by
  refine ⟨?_, ?_, ?_⟩
  · intro path method a h
    unfold getRouteAction
    rw [h]
  · intro path method r1 r2 h1 h2 hit1 hit2
    exact fbHit_unique h1 h2 hit1 hit2
  · intro path method r hr hit hex
    unfold getRouteAction
    rw [hex, loopAction_eq_exactAction, hex]
    show fallbackAction path method = some r.2.2
    unfold fallbackAction
    apply findSome?_eq_of_unique _ _ r
    · exact hr
    · show (if patMatch r.1 path then (if method = r.2.1 then some r.2.2 else none) else none) =
        some r.2.2
      rw [if_pos hit.1, if_pos hit.2]
    · intro r' hr' hne
      have hne' : (if patMatch r'.1 path then
          (if method = r'.2.1 then some r'.2.2 else none) else none) ≠ none := hne
      by_cases hp : patMatch r'.1 path = true
      · by_cases hm : method = r'.2.1
        · exact fbHit_unique hr' hr ⟨hp, hm⟩ hit
        · rw [if_pos hp, if_neg hm] at hne'
          exact absurd rfl hne'
      · rw [if_neg hp] at hne'
        exact absurd rfl hne'

/-- C3 witness: a literal-table hit and a pattern-rule hit resolved through
the precedence theorem. -/
theorem c3_resolution_precedence_witness :
    getRouteAction "/api/server/start" "POST" = some "server.start" ∧
    getRouteAction "/api/players/alice/kick" "POST" = some "players.kick" := by
  constructor
  · exact c3_resolution_precedence.1 "/api/server/start" "POST" "server.start" (by decide)
  · exact c3_resolution_precedence.2.2 "/api/players/alice/kick" "POST"
      ([.lit "", .lit "api", .lit "players", .wild, .lit "kick"], ("POST", "players.kick"))
      (by decide) ⟨by decide, rfl⟩ (by decide)

/-- C4 counterexample: the claim quantifies over every segment containing no
`'/'`, but the empty segment (which contains no `'/'`) is rejected by the
`[^/]+` wildcard — `/api/players//kick` resolves to no action at all. -/
theorem c4_counterexample :
    ('/' ∉ ("" : String).data) ∧
    getRouteAction ("/api/players/" ++ "" ++ "/kick") "POST" = none := by decide

/-- C4 (amended): for every NONEMPTY single path segment `s` containing no
`'/'` character, `getRouteAction('/api/players/' + s + '/kick', 'POST')`
returns `players.kick` and `getRouteAction('/api/players/' + s + '/ban',
'DELETE')` returns `players.unban`; in particular this holds for `s = 'alice'`. -/
theorem c4_param_player_routes (s : String) (hne : s ≠ "") (hs : '/' ∉ s.data) :
    getRouteAction ("/api/players/" ++ s ++ "/kick") "POST" = some "players.kick" ∧
    getRouteAction ("/api/players/" ++ s ++ "/ban") "DELETE" = some "players.unban" :=
  ⟨getRouteAction_player_kick s hne hs, getRouteAction_player_ban s hne hs⟩

/-- C4 witness: the instance `s = 'alice'`. -/
theorem c4_param_player_routes_witness :
    getRouteAction ("/api/players/" ++ "alice" ++ "/kick") "POST" = some "players.kick" ∧
    getRouteAction ("/api/players/" ++ "alice" ++ "/ban") "DELETE" = some "players.unban" :=
  c4_param_player_routes "alice" (by decide) (by decide)

/-- C5 counterexample: the code evicts only when `expiresAt < now`, so at
exactly `now = expiresAt = T + 24h` a session is still counted although
`now < expiresAt` is false — the claimed "active iff now < expiresAt"
boundary is off by one instant. -/
theorem c5_counterexample :
    (getActiveDemoSessionCount (0 + 24 * 60 * 60 * 1000) (createDemoLogin 0 "s1" [])).2 = 1 ∧
    ¬ (0 + 24 * 60 * 60 * 1000 < 0 + 24 * 60 * 60 * 1000) := by decide

/-- C5 (amended): `getActiveDemoSessionCount` counts exactly the sessions
with `now ≤ expiresAt` (active iff `now ≤ expiresAt`, i.e. evicted iff
`expiresAt < now`), where `expiresAt = T + 24h` for a session created at `T`;
the session is included when the count is queried at `T` and excluded at
`T + 24h + 1s`, and expired entries are deleted from the store during the
query (lazy eviction). -/
theorem c5_session_counting (now T : Nat) (sid : String)
    (store : List (String × DemoSession)) :
    (getActiveDemoSessionCount now store).2 =
      (store.filter fun e => decide (now ≤ e.2.expiresAt)).length ∧
    (getActiveDemoSessionCount now store).1 =
      store.filter (fun e => decide (now ≤ e.2.expiresAt)) ∧
    ((sid, ⟨"__demo__", T, T + 24 * 60 * 60 * 1000, sid⟩) ∈
      (getActiveDemoSessionCount T (createDemoLogin T sid store)).1) ∧
    ((getActiveDemoSessionCount (T + 24 * 60 * 60 * 1000 + 1000)
        (createDemoLogin T sid store)).1.filter (fun e => decide (e.1 = sid))) = [] := by
  have hpred : ∀ e : String × DemoSession,
      (!decide (e.2.expiresAt < now)) = decide (now ≤ e.2.expiresAt) := by
    intro e
    rw [← decide_not, decide_eq_decide]
    exact Nat.not_lt
  refine ⟨?_, ?_, ?_, ?_⟩
  · show (sweepSessions now store).length = _
    unfold sweepSessions
    rw [List.filter_congr (fun e _ => hpred e)]
  · show sweepSessions now store = _
    unfold sweepSessions
    rw [List.filter_congr (fun e _ => hpred e)]
  · show _ ∈ sweepSessions T (createDemoLogin T sid store)
    unfold sweepSessions createDemoLogin
    apply List.mem_filter.mpr
    refine ⟨mem_mapSet_self _ _ _, ?_⟩
    simp [Nat.not_lt.mpr (Nat.le_add_right T _)]
  · show (sweepSessions _ (createDemoLogin T sid store)).filter _ = []
    rw [List.filter_eq_nil_iff]
    intro e he hkey
    have hmem := (List.mem_filter.mp he).1
    have hcond := (List.mem_filter.mp he).2
    have hk : e.1 = sid := of_decide_eq_true hkey
    have heq := mapSet_key_eq store sid _ e hmem hk
    rw [heq] at hcond
    simp at hcond

/-- C6: `performDemoReset` empties the session store (a subsequent
`getActiveDemoSessionCount` returns 0) and re-establishes
`nextReset = lastReset + resetIntervalHours` in milliseconds;
`initializeDemoReset` establishes the same invariant when demo mode is
enabled. -/
theorem c6_reset_invariant (cfg : DemoConfig) (now now2 : Nat) (st : DemoState)
    (hen : cfg.enabled = true) :
    (performDemoReset cfg now st).sessions = [] ∧
    (getActiveDemoSessionCount now2 (performDemoReset cfg now st).sessions).2 = 0 ∧
    (performDemoReset cfg now st).reset.lastReset = some now ∧
    (performDemoReset cfg now st).reset.nextReset =
      some (now + cfg.resetIntervalHours * 60 * 60 * 1000) ∧
    (initializeDemoReset cfg now st).reset.lastReset = some now ∧
    (initializeDemoReset cfg now st).reset.nextReset =
      some (now + cfg.resetIntervalHours * 60 * 60 * 1000) := by
  unfold performDemoReset initializeDemoReset getActiveDemoSessionCount sweepSessions
  rw [hen]
  simp

/-- C6 witness: a concrete reset run. -/
theorem c6_reset_invariant_witness :
    (performDemoReset ⟨true, 6, []⟩ 1000 ⟨[], ⟨none, none, 6⟩⟩).sessions = [] ∧
    (getActiveDemoSessionCount 5000
      (performDemoReset ⟨true, 6, []⟩ 1000 ⟨[], ⟨none, none, 6⟩⟩).sessions).2 = 0 ∧
    (performDemoReset ⟨true, 6, []⟩ 1000 ⟨[], ⟨none, none, 6⟩⟩).reset.lastReset = some 1000 ∧
    (performDemoReset ⟨true, 6, []⟩ 1000 ⟨[], ⟨none, none, 6⟩⟩).reset.nextReset =
      some (1000 + 6 * 60 * 60 * 1000) ∧
    (initializeDemoReset ⟨true, 6, []⟩ 1000 ⟨[], ⟨none, none, 6⟩⟩).reset.lastReset = some 1000 ∧
    (initializeDemoReset ⟨true, 6, []⟩ 1000 ⟨[], ⟨none, none, 6⟩⟩).reset.nextReset =
      some (1000 + 6 * 60 * 60 * 1000) :=
  c6_reset_invariant ⟨true, 6, []⟩ 1000 5000 ⟨[], ⟨none, none, 6⟩⟩ rfl

/-- C7: `demoMiddleware` is a total function — for every configuration,
token-verifier behavior and request it reaches a definite decision, either
passing the request to `next` (exactly once, by construction of the result
type) or writing the simulated envelope (and not calling `next`); no error
branch exists. -/
theorem c7_middleware_total (cfg : DemoConfig) (verify : String → Option String)
    (req : DemoRequest) :
    (∃ r, demoMiddleware cfg verify req = MiddlewareResult.next r) ∨
    (∃ r body, demoMiddleware cfg verify req = MiddlewareResult.json r body) := by
  unfold demoMiddleware
  by_cases h1 : isDemoModeEnabled cfg
  · simp only [h1, Bool.not_true, Bool.false_eq_true, if_false]
    by_cases h2 : isDemoUser (strOrOpt req.user (extractUserFromToken verify req.authorization))
    · simp only [h2, Bool.not_true, Bool.false_eq_true, if_false]
      cases h3 : getRouteAction req.path req.method with
      | none => exact Or.inl ⟨_, rfl⟩
      | some action =>
        by_cases h4 : shouldSimulateAction cfg action
        · simp only [h4, Bool.not_true, Bool.false_eq_true, if_false]
          exact Or.inr ⟨_, _, rfl⟩
        · simp only [h4]
          exact Or.inl ⟨_, rfl⟩
    · simp only [h2]
      exact Or.inl ⟨_, rfl⟩
  · simp only [h1]
    exact Or.inl ⟨_, rfl⟩

/-- C8: `createSimulatedResponse` returns `success = true` and
`simulated = true` for EVERY action string and every optional custom message —
there is no simulated-failure outcome; and when the action has no configured
message and no custom message is given, the message is the fallback
`'Aktion ausgeführt (Demo)'`. -/
theorem c8_envelope_always_success (action : String) (customMessage : Option String) :
    (createSimulatedResponse action customMessage).success = true ∧
    (createSimulatedResponse action customMessage).simulated = true ∧
    (alookup DEMO_MESSAGES action = none →
      (createSimulatedResponse action none).message = "Aktion ausgeführt (Demo)") := by
  refine ⟨rfl, rfl, fun hmiss => ?_⟩
  simp [createSimulatedResponse, strOrElse, hmiss]

/-- C8 witness: a mapped action with a custom message for the success/simulated
conjuncts, and an unmapped action for the fallback-message conjunct. -/
theorem c8_envelope_always_success_witness :
    (createSimulatedResponse "server.start" (some "custom")).success = true ∧
    (createSimulatedResponse "server.start" (some "custom")).simulated = true ∧
    (createSimulatedResponse "not.an.action" none).message = "Aktion ausgeführt (Demo)" :=
  ⟨(c8_envelope_always_success "server.start" (some "custom")).1,
   (c8_envelope_always_success "server.start" (some "custom")).2.1,
   (c8_envelope_always_success "not.an.action" none).2.2 (by decide)⟩

/-- C9: for an absent authorization header, or one that does not start with
`'Bearer '`, `extractUserFromToken` returns `null` (it is a total function,
so identity-resolution failure is an ordinary outcome, not a fault),
regardless of the token verifier's behavior. -/
theorem c9_extract_user_malformed_none (verify : String → Option String) (h : String)
    (hpre : leadsWith "Bearer ".data h.data = false) :
    extractUserFromToken verify none = none ∧
    extractUserFromToken verify (some h) = none := by
  refine ⟨rfl, ?_⟩
  unfold extractUserFromToken
  simp [hpre]

/-- C9 witness: a verifier that would accept anything still yields no
identity for a `Basic` header. -/
theorem c9_extract_user_malformed_none_witness :
    extractUserFromToken (fun _ => some "admin") none = none ∧
    extractUserFromToken (fun _ => some "admin") (some "Basic abc") = none :=
  c9_extract_user_malformed_none (fun _ => some "admin") "Basic abc" (by decide)

/-- C10: no key of `ROUTE_ACTION_MAP` contains `':'`, so the
parameterized-pattern loop of `getRouteAction` is redundant: for every path
and method the result equals the variant with the loop removed (exact lookup
followed by the hard-coded fallback predicates). -/
theorem c10_pattern_loop_redundant :
    (ROUTE_ACTION_MAP.all (fun e => !(e.1.data.contains ':')) = true) ∧
    ∀ path method, getRouteAction path method = getRouteActionNoLoop path method := by
  refine ⟨by decide, ?_⟩
  intro path method
  unfold getRouteAction getRouteActionNoLoop
  rw [loopAction_eq_exactAction]
  cases h : exactAction path method with
  | some a => simp [h]
  | none => simp [h]

end HytaleDemo
